import Mathlib

/-!
Verification of the daily-reminder / escalation system (Reminder-Personal).

This file gives a shallow embedding of the core of the repository:
the MySQL persistence layer (`database.py`), the confirmation classifier
(`confirmation_ai.py`, template fallback path, which is the default since
`Config.OPENAI_ENABLED` defaults to false), the inbound-message handler
(`message_processor.py`), the reminder dispatcher
(`reminder/reminder_logic.py`) and the escalation tick
(`routes/escalation_routes.py` together with `escalation_logic.py`).

Conventions of the embedding:
- Timestamps are natural numbers counting minutes; dates are natural
  numbers counting days.  The SQL string comparisons via `STR_TO_DATE`
  order timestamps exactly like the numeric order used here.
- SQL `NULL` is `Option.none`; the MySQL column defaults of
  `daily_reminders` (`confirmed 0`, `escalation_level 0`,
  `next_escalation_time NULL`, `escalation_messages_sent '[]'`) appear in
  `create_daily_reminder`.
- A table is a `List` of records; `AUTO_INCREMENT` primary keys are
  modelled by the `next_reminder_id` / `next_customer_id` counters.
- Two methods called by the application exist only in the abandoned
  `database_sqlite_original.py`, not on the MySQL `Database` class that is
  actually instantiated: `stop_escalations_for_customer` (called by
  `message_processor._process_confirmation`) and `update_escalation_level`
  (called by `reminder_logic.send_reminder`). At runtime these calls raise
  `AttributeError`, which the surrounding `try/except` blocks swallow.  The
  embedding of the callers therefore models the call as having no effect on
  the store; the sqlite originals are embedded separately (suffix
  `_sqlite`) to state how the actual behaviour diverges from the intent.
- A third port defect lives in `EscalationLogic.should_stop_escalating`:
  its 2-hour branch applies `datetime.fromisoformat` to the row's
  `created_at`, a `datetime` object on MySQL rows, raising `TypeError`
  which the escalation route's per-reminder `except` swallows.  The
  predicate as its lines express it is embedded as
  `should_stop_escalating`, used by the tick model whose transitions are a
  superset of the real ones; the execution that actually happens is
  embedded with the suffix `_mysql` (`should_stop_escalating_mysql`,
  `tick_record_mysql`, `check_and_send_escalations_mysql`), under which a
  tick never modifies the store.
-/

namespace ReminderSystem

/-- Python substring containment: `startsWithChars p l` is `l.startswith(p)`
on character lists. -/
def startsWithChars : List Char → List Char → Bool
  | [], _ => true
  | _ :: _, [] => false
  | p :: ps, h :: hs => (p == h) && startsWithChars ps hs

/-- Python `pat in hay` (substring containment) on character lists. -/
def containsChars (pat : List Char) : List Char → Bool
  | [] => startsWithChars pat []
  | h :: t => startsWithChars pat (h :: t) || containsChars pat t

/-- Python `str.lower()` (ASCII case folding; Hebrew letters are unaffected,
as in CPython for these code points). -/
def pyLower (s : String) : String :=
  String.mk (s.data.map Char.toLower)

/-- Python `str.strip()`: remove leading and trailing whitespace. -/
def pyStrip (s : String) : String :=
  String.mk (((s.data.dropWhile Char.isWhitespace).reverse.dropWhile
    Char.isWhitespace).reverse)

/-- Confirm vocabulary of `ConfirmationAI._template_confirmation_analysis`
(confirmation_ai.py lines 101-102). -/
def confirm_patterns : List String :=
  ["taken", "yes", "done", "ok", "✅", "took", "taken it", "swallowed",
   "consumed", "לקחתי", "כן", "סיימתי", "אוקיי", "לקחת", "בלעתי", "גמרתי"]

/-- Missed vocabulary of `ConfirmationAI._template_confirmation_analysis`
(confirmation_ai.py lines 105-106). -/
def missed_patterns : List String :=
  ["missed", "no", "forgot", "❌", "didn\x27t", "havent", "haven\x27t",
   "forgotten", "החמצתי", "לא", "שכחתי", "לא לקחתי", "לא לקחת", "שכחת"]

/-- Reply sent after a recognised confirmation (confirmation_ai.py line 109). -/
def confirm_reply : String := "מעולה! רשמתי שלקחת את הגלולה. תישארי בריאה! 💪"

/-- Reply sent after a recognised missed-dose message (confirmation_ai.py line 111). -/
def missed_reply : String := "אל דאגה! קחי אותה בהקדם האפשרי. הבריאות שלך חשובה! 🏥"

/-- Reply sent when the message matches neither vocabulary (confirmation_ai.py line 113). -/
def unclear_reply : String := "לא הבנתי את זה. תכתבי \x27לקחתי\x27 אם לקחת או \x27החמצתי\x27 אם החמצת."

/-- `ConfirmationAI._template_confirmation_analysis`: deterministic keyword
classifier, the fallback (and, with AI disabled, the only) path.  The
confirm vocabulary is tested first; each test is Python substring
containment on the lowercased, stripped message. -/
def template_confirmation_analysis (message : String) : Bool × String :=
  let message_lower := pyStrip (pyLower message)
  if confirm_patterns.any (fun p => containsChars p.data message_lower.data) then
    (true, confirm_reply)
  else if missed_patterns.any (fun p => containsChars p.data message_lower.data) then
    (false, missed_reply)
  else
    (false, unclear_reply)

/-- Row of the `customers` table (database.py lines 124-134). -/
structure Customer where
  id : Nat
  phone_number : String
  name : Option String
  reminder_time : String
  is_active : Bool
deriving DecidableEq, Repr

/-- One entry of the JSON `escalation_messages_sent` column
(database.py lines 761-765). -/
structure EscalationEntry where
  level : Nat
  message : String
  timestamp : Nat
deriving DecidableEq, Repr

/-- Row of the `daily_reminders` table (database.py lines 137-154). -/
structure DailyReminder where
  id : Nat
  customer_id : Nat
  reminder_date : Nat
  reminder_time : String
  message_sent : String
  confirmed : Bool
  confirmation_message : Option String
  confirmation_time : Option Nat
  escalation_level : Nat
  next_escalation_time : Option Nat
  escalation_messages_sent : List EscalationEntry
  created_at : Nat
deriving DecidableEq, Repr

/-- The persistent store: the two tables the reminder lifecycle touches,
plus the auto-increment counters of their primary keys. -/
structure DBState where
  customers : List Customer
  daily_reminders : List DailyReminder
  next_customer_id : Nat
  next_reminder_id : Nat
deriving DecidableEq, Repr

/-- `Database.get_customer_by_phone` (database.py lines 458-475): any
customer, active or not, whose phone matches. -/
def get_customer_by_phone (s : DBState) (phone : String) : Option Customer :=
  s.customers.find? (fun c => c.phone_number == phone)

/-- `Database.get_daily_reminder` (database.py lines 607-625). -/
def get_daily_reminder (s : DBState) (cid date : Nat) : Option DailyReminder :=
  s.daily_reminders.find? (fun r => r.customer_id == cid && r.reminder_date == date)

/-- `Database.get_customers_by_reminder_time` (database.py lines 547-565). -/
def get_customers_by_reminder_time (s : DBState) (t : String) : List Customer :=
  s.customers.filter (fun c => c.is_active && c.reminder_time == t)

/-- `Database.update_daily_reminder_confirmation` (database.py lines
627-649): sets `confirmed`, `confirmation_message` and
`confirmation_time = NOW()` on every row matching the key — the
confirmation time is written even when `confirmed` is false. -/
def update_daily_reminder_confirmation (s : DBState) (cid date : Nat)
    (confirmed : Bool) (msg : String) (now : Nat) : DBState :=
  { s with daily_reminders := s.daily_reminders.map (fun r =>
      if r.customer_id == cid && r.reminder_date == date then
        { r with confirmed := confirmed, confirmation_message := some msg,
                 confirmation_time := some now }
      else r) }

/-- `Database.stop_escalations_for_customer` as written in
database_sqlite_original.py lines 764-784.  This method does NOT exist on
the MySQL `Database` class in database.py, although
`message_processor._process_confirmation` calls it. -/
def stop_escalations_for_customer_sqlite (s : DBState) (cid date : Nat) : DBState :=
  { s with daily_reminders := s.daily_reminders.map (fun r =>
      if r.customer_id == cid && r.reminder_date == date then
        { r with next_escalation_time := none }
      else r) }

/-- `Database.create_daily_reminder` (database.py lines 585-605).  The
insert provides only the four explicit columns; `confirmed`,
`escalation_level`, `next_escalation_time` and `escalation_messages_sent`
take their MySQL defaults (`0`, `0`, `NULL`, `'[]'`).  The
`UNIQUE KEY unique_customer_date (customer_id, reminder_date)` constraint
makes a duplicate insert raise, modelled as `none`. -/
def newDailyReminder (s : DBState) (cid date : Nat)
    (timeStr msg : String) (createdAt : Nat) : DailyReminder :=
  { id := s.next_reminder_id, customer_id := cid, reminder_date := date,
    reminder_time := timeStr, message_sent := msg, confirmed := false,
    confirmation_message := none, confirmation_time := none,
    escalation_level := 0, next_escalation_time := none,
    escalation_messages_sent := [], created_at := createdAt }

/-- The insert itself, guarded by the uniqueness constraint. -/
def create_daily_reminder (s : DBState) (cid date : Nat)
    (timeStr msg : String) (createdAt : Nat) : Option DBState :=
  if s.daily_reminders.any (fun r => r.customer_id == cid && r.reminder_date == date) then
    none
  else
    some { s with
      daily_reminders := s.daily_reminders ++ [newDailyReminder s cid date timeStr msg createdAt],
      next_reminder_id := s.next_reminder_id + 1 }

/-- `Database.get_reminders_needing_escalation` (database.py lines 716-735):
`confirmed = 0`, `reminder_date` strictly before today (`< CURDATE()`),
and `next_escalation_time IS NULL OR next_escalation_time <= NOW()`; the
inner `JOIN customers` keeps only rows whose customer exists (active or
not).  There is no `escalation_level` condition.  The membership predicate
of the query (its `ORDER BY` is irrelevant to the claims): -/
def needs_escalation (s : DBState) (today now : Nat) (r : DailyReminder) : Bool :=
  !r.confirmed && decide (r.reminder_date < today) &&
    (match r.next_escalation_time with
     | none => true
     | some t => decide (t ≤ now)) &&
    s.customers.any (fun c => c.id == r.customer_id)

/-- `Database.get_reminders_needing_escalation` as a query returning the
matching rows. -/
def get_reminders_needing_escalation (s : DBState) (today now : Nat) :
    List DailyReminder :=
  s.daily_reminders.filter (needs_escalation s today now)

/-- The stop predicate of `EscalationLogic.should_stop_escalating`
(escalation_logic.py lines 165-191) as its lines express it: stop when
confirmed, when `escalation_level >= 4`, or when more than 2 hours (120
minutes) have passed since `created_at`.  On rows of the MySQL database
the 2-hour branch never actually completes (see
`should_stop_escalating_mysql` for what executes); this computed form is
the predicate the source intends, and the tick model built on it performs
a superset of the real code's transitions — the real tick coincides with
the model in which every send fails
(`check_and_send_escalations_mysql_refines`). -/
def should_stop_escalating (now : Nat) (r : DailyReminder) : Bool :=
  r.confirmed || decide (4 ≤ r.escalation_level) || decide (120 < now - r.created_at)

/-- `EscalationLogic.should_stop_escalating` as it actually executes on a
row of the MySQL database: the confirmed early return (escalation_logic.py
lines 176-177) and the `escalation_level >= 4` early return (lines
180-181) complete, but every row that reaches the 2-hour branch crashes —
line 184 applies `datetime.fromisoformat` to the row's `created_at`,
which mysql-connector returns as a `datetime` object for the `TIMESTAMP`
column, raising `TypeError` (and were it a string, line 186 would
subtract the offset-naive result from the offset-aware
`datetime.now(utc)`, which also raises).  `none` models the raised
exception; the function can never return `False` on a database row. -/
def should_stop_escalating_mysql (r : DailyReminder) : Option Bool :=
  if r.confirmed then some true
  else if 4 ≤ r.escalation_level then some true
  else none

/-- `EscalationLogic.calculate_next_escalation_time` (escalation_logic.py
lines 149-163): always `current_time + 30` minutes; the
`escalation_level` argument is accepted but ignored. -/
def calculate_next_escalation_time (current_time : Nat) (_escalation_level : Nat) : Nat :=
  current_time + 30

/-- `EscalationLogic._template_escalation_message` (escalation_logic.py
lines 90-110): the deterministic per-level template, the only path with
AI disabled (`Config.OPENAI_ENABLED` defaults to false); levels outside
1-4 fall back to the level-1 template via `dict.get`. -/
def template_escalation_message (level : Nat) (customer_name : Option String) : String :=
  let name_part := match customer_name with
    | some n => n ++ "! "
    | none => ""
  if level == 2 then
    name_part ++ "אני מחכה... הכדור שלך עדיין מחכה! 😤💊\nזה כבר שעה - אל תשכחי!"
  else if level == 3 then
    name_part ++ "זה כבר שעה וחצי! הכדור לא יקח את עצמו! 😠💊\nבואי, זה רק דקה אחת!"
  else if level == 4 then
    name_part ++ "שתי שעות! זה לא משחק! קחי את הכדור עכשיו! 😡💊\nזה חשוב מדי בשביל לדחות!"
  else
    name_part ++ "היי! עדיין לא לקחת את הכדור? ⏰💊\nזכרי - זה חשוב לבריאות שלך!"

/-- Customer lookup by primary key, as performed by the
`JOIN customers c ON dr.customer_id = c.id` of the escalation query. -/
def lookup_customer (s : DBState) (cid : Nat) : Option Customer :=
  s.customers.find? (fun c => c.id == cid)

/-- Effect of one successful escalation on a record, combining
`Database.update_escalation` (database.py lines 737-778) with the call
site in `check_and_send_escalations` (escalation_routes.py lines 47-67):
level becomes `level + 1`, the entry `{level + 1, message, now}` is
appended to `escalation_messages_sent`, and `next_escalation_time`
becomes `now + 30` minutes, unconditionally. -/
def escalate_record (s : DBState) (now : Nat) (r : DailyReminder) : DailyReminder :=
  let msg := template_escalation_message (r.escalation_level + 1)
    ((lookup_customer s r.customer_id).bind Customer.name)
  { r with
    escalation_level := r.escalation_level + 1,
    next_escalation_time :=
      some (calculate_next_escalation_time now (r.escalation_level + 1)),
    escalation_messages_sent := r.escalation_messages_sent ++
      [{ level := r.escalation_level + 1, message := msg, timestamp := now }] }

/-- Per-record behaviour of one scheduler tick
(`check_and_send_escalations`, escalation_routes.py lines 18-91), with
the stop check read as the predicate its lines express: a record not
returned by the query is untouched; a candidate for which
`should_stop_escalating` holds is skipped by a bare `continue`, leaving
the row unchanged (in particular `next_escalation_time` is not cleared);
otherwise the escalation is sent (`sendOk` models the gateway outcome for
the record's customer) and on success the record is escalated, on failure
it is left unchanged and the loop continues with the next candidate.
The execution that actually happens on MySQL rows — where the stop check
raises instead of returning `False` — is `tick_record_mysql` below, and
equals this model with every send failing, so this model's transitions
are a superset of the real ones. -/
def tick_record (s : DBState) (sendOk : Nat → Bool) (today now : Nat)
    (r : DailyReminder) : DailyReminder :=
  if needs_escalation s today now r then
    if should_stop_escalating now r then r
    else if sendOk r.customer_id then escalate_record s now r
    else r
  else r

/-- One scheduler tick (`check_and_send_escalations`) in the
intended-predicate model.  The route fetches the candidate list and then
updates each candidate by its primary-key `id`; since ids are distinct
this equals updating each row in place. -/
def check_and_send_escalations (s : DBState) (sendOk : Nat → Bool)
    (today now : Nat) : DBState :=
  { s with daily_reminders := s.daily_reminders.map (tick_record s sendOk today now) }

/-- Per-record behaviour of one tick as the MySQL code actually executes
(escalation_routes.py lines 37-77): the route calls
`should_stop_escalating` on each candidate; a `True` result hits the bare
`continue`, and the `TypeError` raised for every unconfirmed row below
level 4 (`none`) is caught by the per-reminder `except` at lines 75-77,
which counts a failure and continues with the next candidate.  In every
case the row is left unchanged — `send_escalation` and
`update_escalation` are never reached on this path. -/
def tick_record_mysql (s : DBState) (today now : Nat)
    (r : DailyReminder) : DailyReminder :=
  if needs_escalation s today now r then
    match should_stop_escalating_mysql r with
    | some _ => r
    | none => r
  else r

/-- One scheduler tick as the MySQL code actually executes: no row is
ever modified and no escalation message is ever sent. -/
def check_and_send_escalations_mysql (s : DBState) (today now : Nat) : DBState :=
  { s with daily_reminders := s.daily_reminders.map (tick_record_mysql s today now) }

/-- `MessageProcessor._process_confirmation` (message_processor.py lines
126-178), with the classifier on its deterministic template path.
Returns the updated store and Python return value.  When the classifier
says confirmed, the code calls `self.db.stop_escalations_for_customer`,
a method the MySQL `Database` class does not have; the resulting
`AttributeError` is caught by the function's own `except`, which returns
`None` — but the confirmation UPDATE has already been committed, so the
store keeps the confirmation while `next_escalation_time` stays as it
was. -/
def process_confirmation (s : DBState) (sender text : String)
    (today now : Nat) : DBState × Option String :=
  match get_customer_by_phone s sender with
  | none => (s, none)
  | some c =>
    match get_daily_reminder s c.id today with
    | none => (s, none)
    | some r =>
      if r.confirmed then (s, none)
      else
        let a := template_confirmation_analysis text
        let s' := update_daily_reminder_confirmation s c.id today a.1 text now
        if a.1 then (s', none)
        else (s', some a.2)

/-- The behaviour `_process_confirmation` was written for: identical to
`process_confirmation` except that the confirmed branch reaches
`stop_escalations_for_customer` (the sqlite implementation) and returns
the classifier's reply.  Used only to state how the shipped code
diverges. -/
def process_confirmation_sqlite (s : DBState) (sender text : String)
    (today now : Nat) : DBState × Option String :=
  match get_customer_by_phone s sender with
  | none => (s, none)
  | some c =>
    match get_daily_reminder s c.id today with
    | none => (s, none)
    | some r =>
      if r.confirmed then (s, none)
      else
        let a := template_confirmation_analysis text
        let s' := update_daily_reminder_confirmation s c.id today a.1 text now
        if a.1 then (stop_escalations_for_customer_sqlite s' c.id today, some a.2)
        else (s', some a.2)

/-- Record-creation phase of `ReminderLogic.send_reminder`
(reminder/reminder_logic.py lines 258-285), for a dispatch of the slot
`slot` with generated message `msg`: for each active customer of the
slot, `create_daily_reminder` is attempted inside a per-customer
`try/except`; a duplicate-key error is caught and the loop continues.
After a successful insert the code calls `db.update_escalation_level`
to set the initial `next_escalation_time = now + 30` — a method that
exists only in database_sqlite_original.py, so the call raises
`AttributeError`, the `except` logs it, and the freshly created row keeps
its column defaults (`escalation_level = 0`,
`next_escalation_time = NULL`). -/
def create_step (slot msg : String) (today now : Nat)
    (st : DBState) (c : Customer) : DBState :=
  match create_daily_reminder st c.id today slot msg now with
  | none => st
  | some st' => st'

/-- The full record-creation loop of `send_reminder` over the slot's
active customers. -/
def send_reminder_records (s : DBState) (slot msg : String)
    (today now : Nat) : DBState :=
  (get_customers_by_reminder_time s slot).foldl (create_step slot msg today now) s

/-- Characters removed by `validate_phone_number`'s cleaning step
(customer_routes.py line 26, regex `[\s\-\(\)]`): whitespace, dashes,
parentheses. -/
def phone_separator_char (c : Char) : Bool :=
  c.isWhitespace || c == '-' || c == '(' || c == ')'

/-- `validate_phone_number` (customer_routes.py lines 15-36): strip
separators, drop one leading `+`, then require 10-15 characters, all
digits (regex `^\d{10,15}$`). -/
def validate_phone_number (p : String) : Bool :=
  let cleaned := p.data.filter (fun c => !phone_separator_char c)
  let digits := match cleaned with
    | '+' :: rest => rest
    | l => l
  decide (10 ≤ digits.length) && decide (digits.length ≤ 15) &&
    digits.all Char.isDigit

/-- `validate_reminder_time` (customer_routes.py lines 38-52): the regex
`^([01]?[0-9]|2[0-3]):[0-5][0-9]$` — one- or two-digit hour 0-23, colon,
two-digit minute 00-59. -/
def validate_reminder_time (t : String) : Bool :=
  match t.data with
  | [h, c, m1, m2] =>
      (c == ':') && h.isDigit &&
        ('0' ≤ m1 && m1 ≤ '5') && m2.isDigit
  | [h1, h2, c, m1, m2] =>
      (c == ':') &&
        (((h1 == '0' || h1 == '1') && h2.isDigit) ||
          (h1 == '2' && ('0' ≤ h2 && h2 ≤ '3'))) &&
        ('0' ≤ m1 && m1 ≤ '5') && m2.isDigit
  | _ => false

/-- Outcome of the `POST /api/customers` route. -/
inductive AddCustomerResult where
  | missingPhone
  | invalidPhone
  | invalidTime
  | duplicatePhone
  | created (id : Nat)
deriving DecidableEq, Repr

/-- `add_customer` (customer_routes.py lines 79-146): strip the inputs
(`reminder_time` defaults to "20:00"), reject an empty phone, validate the
phone, validate the time, reject a phone that already exists (looked up by
exact string, with no `is_active` filter), else insert the customer
(`is_active` defaults to 1, database.py line 130). -/
def add_customer_route (s : DBState) (phone name time : Option String) :
    DBState × AddCustomerResult :=
  let phone_number := pyStrip (phone.getD "")
  let nameS := pyStrip (name.getD "")
  let reminder_time := pyStrip (time.getD "20:00")
  if phone_number == "" then (s, .missingPhone)
  else if !validate_phone_number phone_number then (s, .invalidPhone)
  else if !validate_reminder_time reminder_time then (s, .invalidTime)
  else if (get_customer_by_phone s phone_number).isSome then (s, .duplicatePhone)
  else
    ({ s with
        customers := s.customers ++
          [{ id := s.next_customer_id, phone_number := phone_number,
             name := if nameS == "" then none else some nameS,
             reminder_time := reminder_time, is_active := true }],
        next_customer_id := s.next_customer_id + 1 },
     .created s.next_customer_id)

/-- One operation of the surrounding layer on the store: a dispatch of one
slot, one escalation tick, one inbound message, or a directory operation
(directory operations — add, update, soft delete — touch only the
`customers` table). -/
inductive Step : DBState → DBState → Prop
  | dispatch (s : DBState) (slot msg : String) (today now : Nat) :
      Step s (send_reminder_records s slot msg today now)
  | tick (s : DBState) (sendOk : Nat → Bool) (today now : Nat) :
      Step s (check_and_send_escalations s sendOk today now)
  | inbound (s : DBState) (sender text : String) (today now : Nat) :
      Step s (process_confirmation s sender text today now).1
  | directory (s : DBState) (cs : List Customer) (nc : Nat) :
      Step s { s with customers := cs, next_customer_id := nc }

/-- Stores reachable from an empty `daily_reminders` table by the
operations of the system. -/
inductive Reachable : DBState → Prop
  | init (cs : List Customer) (nc : Nat) :
      Reachable { customers := cs, daily_reminders := [],
                  next_customer_id := nc, next_reminder_id := 1 }
  | step {s s' : DBState} : Reachable s → Step s s' → Reachable s'

/-! Concrete fixtures used by the closed theorems and witnesses. -/

/-- The recipient of Scenario D of the specification. -/
def danaCustomer : Customer :=
  { id := 1, phone_number := "972501234567", name := some "Dana",
    reminder_time := "20:00", is_active := true }

/-- A mid-escalation record as in Scenario B of the specification:
dispatched at minute 1200 (20:00 of day 0), escalated once at 1230,
next escalation due at 1260 — written here at level 1 with the level-1
entry recorded. -/
def scenarioBReminder : DailyReminder :=
  { id := 1, customer_id := 1, reminder_date := 0, reminder_time := "20:00",
    message_sent := "זמן לכדור! 💊", confirmed := false,
    confirmation_message := none, confirmation_time := none,
    escalation_level := 1, next_escalation_time := some 1260,
    escalation_messages_sent :=
      [{ level := 1, message := template_escalation_message 1 (some "Dana"),
         timestamp := 1230 }],
    created_at := 1200 }

/-- Store holding `danaCustomer` and `scenarioBReminder`. -/
def scenarioBState : DBState :=
  { customers := [danaCustomer], daily_reminders := [scenarioBReminder],
    next_customer_id := 2, next_reminder_id := 2 }

/-- Same store with the record at escalation level 3, one tick before the
ladder's last rung. -/
def level3Reminder : DailyReminder :=
  { id := 1, customer_id := 1, reminder_date := 0, reminder_time := "20:00",
    message_sent := "זמן לכדור! 💊", confirmed := false,
    confirmation_message := none, confirmation_time := none,
    escalation_level := 3, next_escalation_time := some 1290,
    escalation_messages_sent :=
      [{ level := 1, message := template_escalation_message 1 (some "Dana"),
         timestamp := 1230 }],
    created_at := 1200 }

/-- Store holding `danaCustomer` and `level3Reminder`. -/
def level3State : DBState :=
  { customers := [danaCustomer], daily_reminders := [level3Reminder],
    next_customer_id := 2, next_reminder_id := 2 }

/-- A record whose escalation ladder is exhausted (level 4) but whose
`next_escalation_time` was left non-null by the last escalation. -/
def exhaustedReminder : DailyReminder :=
  { id := 1, customer_id := 1, reminder_date := 0, reminder_time := "20:00",
    message_sent := "זמן לכדור! 💊", confirmed := false,
    confirmation_message := none, confirmation_time := none,
    escalation_level := 4, next_escalation_time := some 1290,
    escalation_messages_sent :=
      [{ level := 1, message := template_escalation_message 1 (some "Dana"),
         timestamp := 1230 }],
    created_at := 1200 }

/-- Store holding `danaCustomer` and `exhaustedReminder`. -/
def exhaustedState : DBState :=
  { customers := [danaCustomer], daily_reminders := [exhaustedReminder],
    next_customer_id := 2, next_reminder_id := 2 }

/-- An unconfirmed record from a past date whose `next_escalation_time`
is null (exactly what `create_daily_reminder` leaves behind) and whose
ladder is already exhausted. -/
def nullTimeReminder : DailyReminder :=
  { id := 1, customer_id := 1, reminder_date := 0, reminder_time := "20:00",
    message_sent := "זמן לכדור! 💊", confirmed := false,
    confirmation_message := none, confirmation_time := none,
    escalation_level := 4, next_escalation_time := none,
    escalation_messages_sent := [], created_at := 1200 }

/-- Store holding `danaCustomer` and `nullTimeReminder`. -/
def nullTimeState : DBState :=
  { customers := [danaCustomer], daily_reminders := [nullTimeReminder],
    next_customer_id := 2, next_reminder_id := 2 }

/-- A directory with no customers and no reminders. -/
def emptyDirectory : DBState :=
  { customers := [], daily_reminders := [], next_customer_id := 1, next_reminder_id := 1 }

/-- Store with `danaCustomer` registered and no reminder records yet. -/
def initState : DBState :=
  { customers := [danaCustomer], daily_reminders := [],
    next_customer_id := 2, next_reminder_id := 1 }

/-- `initState` after one dispatch of the 20:00 slot at minute 1200 of
day 0, sending the fixed fallback message `Config.REMINDER_MESSAGE`. -/
def dispatchedState : DBState :=
  send_reminder_records initState "20:00" "זמן לכדור! 💊" 0 1200

/-- The record `dispatchedState` holds: the column defaults of
`daily_reminders` with the dispatch's key and message. -/
def dispatchedReminder : DailyReminder :=
  { id := 1, customer_id := 1, reminder_date := 0, reminder_time := "20:00",
    message_sent := "זמן לכדור! 💊", confirmed := false,
    confirmation_message := none, confirmation_time := none,
    escalation_level := 0, next_escalation_time := none,
    escalation_messages_sent := [], created_at := 1200 }

/-- `dispatchedState` is reachable: one dispatch step from an initial
store. -/
theorem dispatchedState_reachable : Reachable dispatchedState :=
  Reachable.step (Reachable.init [danaCustomer] 2)
    (Step.dispatch initState "20:00" "זמן לכדור! 💊" 0 1200)

/-- Phone format exactly as the specification words it: "10-15 digits,
optional leading `+`", with no other characters. -/
def spec_phone_format (p : String) : Bool :=
  let digits := match p.data with
    | '+' :: rest => rest
    | l => l
  decide (10 ≤ digits.length) && decide (digits.length ≤ 15) &&
    digits.all Char.isDigit

/-- Time format exactly as the specification words it: `HH:MM` with a
two-digit hour 00-23 and minute 00-59. -/
def spec_time_format (t : String) : Bool :=
  match t.data with
  | [h1, h2, c, m1, m2] =>
      (c == ':') &&
        (((h1 == '0' || h1 == '1') && h2.isDigit) ||
          (h1 == '2' && ('0' ≤ h2 && h2 ≤ '3'))) &&
        ('0' ≤ m1 && m1 ≤ '5') && m2.isDigit
  | _ => false

/-- C1: an inbound message classified as confirmed sets `confirmed = true`
and `confirmation_time = now` on today's record, but does NOT clear
`next_escalation_time`: the call to `stop_escalations_for_customer`
raises `AttributeError` (the method exists only in
database_sqlite_original.py), the exception handler returns `None`, and
the record keeps its pending escalation time — evaluated here on the
Scenario-B store, against the sqlite-intended behaviour which does clear
it and return the reply. -/
theorem confirmed_reply_keeps_next_escalation_time :
    (process_confirmation scenarioBState "972501234567" "לקחתי" 0 1245 =
      ({ scenarioBState with
         daily_reminders :=
          [{ scenarioBReminder with
             confirmed := true,
             confirmation_message := some "לקחתי",
             confirmation_time := some 1245 }] }, none)) ∧
    ((process_confirmation scenarioBState "972501234567" "לקחתי" 0 1245).1.daily_reminders.map
      DailyReminder.next_escalation_time = [some 1260]) ∧
    ((process_confirmation_sqlite scenarioBState "972501234567" "לקחתי" 0 1245).1.daily_reminders.map
      DailyReminder.next_escalation_time = [none]) ∧
    (process_confirmation_sqlite scenarioBState "972501234567" "לקחתי" 0 1245).2 =
      some confirm_reply := by
  decide

/-- C3: dispatch creates the day's record with `escalation_level = 0` but
`next_escalation_time = NULL`, not `now + 30`: the insert provides only
the four explicit columns, and the follow-up `update_escalation_level`
call that was meant to store `now + 30` raises `AttributeError` (the
method exists only in database_sqlite_original.py) and is swallowed by
the per-customer exception handler. -/
theorem dispatch_creates_record_with_null_next_time :
    dispatchedState.daily_reminders = [dispatchedReminder] ∧
    dispatchedReminder.escalation_level = 0 ∧
    dispatchedReminder.next_escalation_time = none := by
  decide

/-- C10: the template classifier tests the confirm vocabulary first,
by substring containment on the lowercased stripped message; any message
containing a confirm token is classified as confirmed with the confirm
reply, regardless of what else it contains. -/
theorem confirm_vocabulary_tested_first (m : String)
    (h : confirm_patterns.any
      (fun p => containsChars p.data (pyStrip (pyLower m)).data) = true) :
    template_confirmation_analysis m = (true, confirm_reply) := by
  simp only [template_confirmation_analysis, h, if_true]

/-- Witness for C10 at the Hebrew negation "לא לקחתי" ("I did not take"):
it contains both a confirm token ("לקחתי") and a missed token
("לא לקחתי" itself, and "לא"), and is classified as confirmed. -/
theorem confirm_vocabulary_tested_first_witness :
    confirm_patterns.any
      (fun p => containsChars p.data (pyStrip (pyLower "לא לקחתי")).data) = true ∧
    missed_patterns.any
      (fun p => containsChars p.data (pyStrip (pyLower "לא לקחתי")).data) = true ∧
    template_confirmation_analysis "לא לקחתי" = (true, confirm_reply) :=
  ⟨by decide, by decide, confirm_vocabulary_tested_first "לא לקחתי" (by decide)⟩

/-- C2 counterexample: a record with `next_escalation_time = NULL` and
`escalation_level = 4` IS returned by the escalation query (the query has
no level condition and treats NULL as due), while a record due now but
dated today is NOT returned (the query requires `reminder_date` strictly
before today) — both contradicting the claimed candidate set. -/
theorem escalation_query_counterexample :
    nullTimeReminder ∈ get_reminders_needing_escalation nullTimeState 1 100 ∧
    nullTimeReminder.next_escalation_time = none ∧
    4 ≤ nullTimeReminder.escalation_level ∧
    nullTimeReminder.confirmed = false ∧
    (scenarioBReminder ∈ scenarioBState.daily_reminders ∧
      scenarioBReminder.confirmed = false ∧
      scenarioBReminder.escalation_level < 4 ∧
      scenarioBReminder.next_escalation_time = some 1260 ∧
      scenarioBReminder ∉ get_reminders_needing_escalation scenarioBState 0 1300) := by
  decide

/-- C2 as amended: one tick's candidates are exactly the records of an
existing customer with `confirmed = false`, `reminder_date` strictly
before today, and `next_escalation_time` null or `<= now`; the
`escalation_level < 4` condition is not part of the query (it is
re-checked per record afterwards), and null `next_escalation_time`
records are candidates. -/
theorem escalation_candidates_iff (s : DBState) (today now : Nat)
    (r : DailyReminder) :
    r ∈ get_reminders_needing_escalation s today now ↔
      r ∈ s.daily_reminders ∧ r.confirmed = false ∧ r.reminder_date < today ∧
        (r.next_escalation_time = none ∨
          ∃ t, r.next_escalation_time = some t ∧ t ≤ now) ∧
        ∃ c ∈ s.customers, c.id = r.customer_id := by
  simp only [get_reminders_needing_escalation, needs_escalation, List.mem_filter,
    Bool.and_eq_true, Bool.not_eq_true', decide_eq_true_eq, List.any_eq_true,
    beq_iff_eq]
  constructor
  · rintro ⟨hm, ⟨⟨⟨hc, hd⟩, ht⟩, c, hcm, hcid⟩⟩
    refine ⟨hm, hc, hd, ?_, c, hcm, hcid⟩
    cases hnx : r.next_escalation_time with
    | none => exact Or.inl rfl
    | some t =>
      rw [hnx] at ht
      exact Or.inr ⟨t, rfl, by simpa using ht⟩
  · rintro ⟨hm, hc, hd, ht, c, hcm, hcid⟩
    refine ⟨hm, ⟨⟨⟨hc, hd⟩, ?_⟩, c, hcm, hcid⟩⟩
    rcases ht with hnone | ⟨t, hsome, htle⟩
    · rw [hnone]
    · rw [hsome]
      simpa using htle

/-- C4 counterexample: `exhaustedReminder` is a candidate of the tick at
minute 1300 of day 1, the stop re-check holds (`escalation_level >= 4`,
and more than 2 hours since creation), yet the tick leaves the record —
and in particular its non-null `next_escalation_time` — completely
unchanged: the skip branch is a bare `continue`, never a write. -/
theorem tick_skip_keeps_next_time :
    needs_escalation exhaustedState 1 1300 exhaustedReminder = true ∧
    should_stop_escalating 1300 exhaustedReminder = true ∧
    check_and_send_escalations exhaustedState (fun _ => true) 1 1300 =
      exhaustedState ∧
    exhaustedReminder.next_escalation_time = some 1290 := by
  decide

/-- C8 counterexample: an inbound message classified as missed ("שכחתי",
"I forgot") still writes `confirmation_time = now` on the record —
`update_daily_reminder_confirmation` sets `confirmation_time = NOW()`
unconditionally — contradicting the claim that missed or unclear
messages do not set it. -/
theorem missed_message_sets_confirmation_time :
    (template_confirmation_analysis "שכחתי").1 = false ∧
    (process_confirmation scenarioBState "972501234567" "שכחתי" 0 1245).1.daily_reminders.map
        DailyReminder.confirmation_time = [some 1245] ∧
    (process_confirmation scenarioBState "972501234567" "שכחתי" 0 1245).1.daily_reminders.map
        DailyReminder.confirmed = [false] := by
  decide

/-- C9 counterexample: the phone "050-123-4567" is not 10-15 digits with
an optional leading plus (it contains dashes), and "9:30" is not of the
two-digit `HH:MM` form, yet the add operation accepts both and creates
the recipient: validation first strips whitespace, dashes and
parentheses, and the hour may be a single digit. -/
theorem add_customer_accepts_formatted_phone :
    spec_phone_format "050-123-4567" = false ∧
    (add_customer_route emptyDirectory (some "050-123-4567") (some "Dana")
      (some "20:00")).2 = .created 1 ∧
    spec_time_format "9:30" = false ∧
    (add_customer_route emptyDirectory (some "0501234567") none
      (some "9:30")).2 = .created 1 := by
  decide

/-! Invariants maintained by the operations, and the helper lemmas that
carry them across one step. -/

/-- The duplicate check of `create_daily_reminder` (and general
key-existence tests): does a row with this `(customer_id, reminder_date)`
key exist. -/
def key_present (s : DBState) (cid date : Nat) : Bool :=
  s.daily_reminders.any (fun r => r.customer_id == cid && r.reminder_date == date)

/-- The `UNIQUE KEY unique_customer_date` constraint of the
`daily_reminders` table: no two rows share a `(customer_id,
reminder_date)` key. -/
def unique_keys (s : DBState) : Prop :=
  List.Pairwise (fun a b : DailyReminder =>
    ¬(a.customer_id = b.customer_id ∧ a.reminder_date = b.reminder_date))
    s.daily_reminders

/-- The `AUTO_INCREMENT` primary key of `daily_reminders`: all ids are
below the counter and pairwise distinct. -/
def ids_ok (s : DBState) : Prop :=
  (∀ r ∈ s.daily_reminders, r.id < s.next_reminder_id) ∧
  List.Pairwise (fun a b : DailyReminder => a.id ≠ b.id) s.daily_reminders

/-- Per-record invariant the operations actually maintain: the level is
at most 4, `next_escalation_time` is null exactly while no escalation has
been recorded, and every recorded escalation entry carries a level in
1..4. -/
def record_invariant (r : DailyReminder) : Prop :=
  r.escalation_level ≤ 4 ∧
  (r.next_escalation_time = none ↔ r.escalation_messages_sent = []) ∧
  (∀ e ∈ r.escalation_messages_sent, 1 ≤ e.level ∧ e.level ≤ 4)

/-- The full store invariant. -/
def store_invariant (s : DBState) : Prop :=
  ids_ok s ∧ unique_keys s ∧ ∀ r ∈ s.daily_reminders, record_invariant r

theorem pairwise_id_inj {l : List DailyReminder}
    (h : l.Pairwise (fun a b => a.id ≠ b.id)) :
    ∀ a ∈ l, ∀ b ∈ l, a.id = b.id → a = b := by
  induction l with
  | nil => intro a ha; exact absurd ha (List.not_mem_nil a)
  | cons c t ih =>
    rw [List.pairwise_cons] at h
    intro a ha b hb hab
    rcases List.mem_cons.1 ha with ha1 | ha1 <;>
      rcases List.mem_cons.1 hb with hb1 | hb1
    · rw [ha1, hb1]
    · exact absurd (by rw [← ha1]; exact hab) (h.1 b hb1)
    · exact absurd (by rw [← hb1]; exact hab.symm) (h.1 a ha1)
    · exact ih h.2 a ha1 b hb1 hab

theorem pairwise_key_inj {l : List DailyReminder}
    (h : l.Pairwise (fun a b =>
      ¬(a.customer_id = b.customer_id ∧ a.reminder_date = b.reminder_date))) :
    ∀ a ∈ l, ∀ b ∈ l, a.customer_id = b.customer_id →
      a.reminder_date = b.reminder_date → a = b := by
  induction l with
  | nil => intro a ha; exact absurd ha (List.not_mem_nil a)
  | cons c t ih =>
    rw [List.pairwise_cons] at h
    intro a ha b hb hc hd
    rcases List.mem_cons.1 ha with ha1 | ha1 <;>
      rcases List.mem_cons.1 hb with hb1 | hb1
    · rw [ha1, hb1]
    · exact absurd ⟨by rw [← ha1]; exact hc, by rw [← ha1]; exact hd⟩ (h.1 b hb1)
    · exact absurd ⟨by rw [← hb1]; exact hc.symm, by rw [← hb1]; exact hd.symm⟩ (h.1 a ha1)
    · exact ih h.2 a ha1 b hb1 hc hd

theorem filter_length_le_one {l : List DailyReminder} {p : DailyReminder → Bool}
    (h : l.Pairwise (fun a b => ¬(p a = true ∧ p b = true))) :
    (l.filter p).length ≤ 1 := by
  induction l with
  | nil => simp
  | cons c t ih =>
    rw [List.pairwise_cons] at h
    by_cases hc : p c = true
    · have ht : t.filter p = [] :=
        List.filter_eq_nil_iff.2 (fun b hb hpb => h.1 b hb ⟨hc, hpb⟩)
      simp [List.filter_cons, hc, ht]
    · simp only [List.filter_cons, hc, if_false, Bool.false_eq_true]
      exact ih h.2

theorem store_invariant_map (s : DBState) (f : DailyReminder → DailyReminder)
    (hid : ∀ r, (f r).id = r.id)
    (hcid : ∀ r, (f r).customer_id = r.customer_id)
    (hdate : ∀ r, (f r).reminder_date = r.reminder_date)
    (hrec : ∀ r ∈ s.daily_reminders, record_invariant r → record_invariant (f r))
    (h : store_invariant s) :
    store_invariant { s with daily_reminders := s.daily_reminders.map f } := by
  obtain ⟨⟨hlt, hne⟩, hkeys, hrecs⟩ := h
  refine ⟨⟨?_, ?_⟩, ?_, ?_⟩
  · intro r hr
    rw [List.mem_map] at hr
    obtain ⟨r0, hr0, rfl⟩ := hr
    rw [hid]
    exact hlt r0 hr0
  · exact hne.map f (fun a b hab => by rw [hid, hid]; exact hab)
  · exact hkeys.map f (fun a b hab => by
      rw [unique_keys] at *
      rw [hcid, hdate, hcid, hdate]; exact hab)
  · intro r hr
    rw [List.mem_map] at hr
    obtain ⟨r0, hr0, rfl⟩ := hr
    exact hrec r0 hr0 (hrecs r0 hr0)

theorem should_stop_false_level {now : Nat} {r : DailyReminder}
    (h : should_stop_escalating now r = false) : r.escalation_level < 4 := by
  simp only [should_stop_escalating, Bool.or_eq_false_iff,
    decide_eq_false_iff_not, not_le, not_lt] at h
  exact h.1.2

theorem escalate_record_confirmed (s : DBState) (now : Nat) (r : DailyReminder) :
    (escalate_record s now r).confirmed = r.confirmed := rfl

theorem tick_record_cases (s : DBState) (sendOk : Nat → Bool) (today now : Nat)
    (r : DailyReminder) :
    tick_record s sendOk today now r = r ∨
      (needs_escalation s today now r = true ∧
        should_stop_escalating now r = false ∧
        sendOk r.customer_id = true ∧
        tick_record s sendOk today now r = escalate_record s now r) := by
  unfold tick_record
  by_cases h1 : needs_escalation s today now r = true
  · rw [if_pos h1]
    by_cases h2 : should_stop_escalating now r = true
    · rw [if_pos h2]
      exact Or.inl rfl
    · rw [if_neg h2]
      simp only [Bool.not_eq_true] at h2
      by_cases h3 : sendOk r.customer_id = true
      · rw [if_pos h3]
        exact Or.inr ⟨h1, h2, h3, rfl⟩
      · rw [if_neg h3]
        exact Or.inl rfl
  · rw [if_neg h1]
    exact Or.inl rfl

theorem tick_record_record_invariant (s : DBState) (sendOk : Nat → Bool)
    (today now : Nat) (r : DailyReminder) (h : record_invariant r) :
    record_invariant (tick_record s sendOk today now r) := by
  rcases tick_record_cases s sendOk today now r with heq | ⟨_, hstop, _, heq⟩
  · rw [heq]; exact h
  · rw [heq]
    obtain ⟨hlv, _, hent⟩ := h
    have hlt := should_stop_false_level hstop
    refine ⟨show r.escalation_level + 1 ≤ 4 by omega, by simp [escalate_record], ?_⟩
    intro e he
    rw [escalate_record] at he
    simp only [List.mem_append, List.mem_singleton] at he
    rcases he with he | rfl
    · exact hent e he
    · exact ⟨Nat.succ_le_succ (Nat.zero_le _),
        show r.escalation_level + 1 ≤ 4 by omega⟩

theorem create_step_cases (slot msg : String) (today now : Nat)
    (st : DBState) (c : Customer) :
    (key_present st c.id today = true ∧ create_step slot msg today now st c = st) ∨
    (key_present st c.id today = false ∧
      create_step slot msg today now st c =
        { st with
          daily_reminders := st.daily_reminders ++
            [newDailyReminder st c.id today slot msg now],
          next_reminder_id := st.next_reminder_id + 1 }) := by
  unfold create_step create_daily_reminder
  by_cases h : key_present st c.id today = true
  · rw [key_present] at h
    rw [h]
    exact Or.inl ⟨h, rfl⟩
  · simp only [Bool.not_eq_true] at h
    rw [key_present] at h
    rw [h]
    exact Or.inr ⟨h, rfl⟩

theorem create_step_customers (slot msg : String) (today now : Nat)
    (st : DBState) (c : Customer) :
    (create_step slot msg today now st c).customers = st.customers := by
  rcases create_step_cases slot msg today now st c with ⟨_, h⟩ | ⟨_, h⟩ <;> rw [h]

theorem foldl_create_customers (slot msg : String) (today now : Nat)
    (cs : List Customer) (st : DBState) :
    (cs.foldl (create_step slot msg today now) st).customers = st.customers := by
  induction cs generalizing st with
  | nil => rfl
  | cons c t ih =>
    rw [List.foldl_cons, ih, create_step_customers]

theorem create_step_extends (slot msg : String) (today now : Nat)
    (st : DBState) (c : Customer) :
    ∃ L, (create_step slot msg today now st c).daily_reminders =
        st.daily_reminders ++ L ∧
      st.next_reminder_id ≤ (create_step slot msg today now st c).next_reminder_id ∧
      ∀ x ∈ L, st.next_reminder_id ≤ x.id ∧ x.escalation_level = 0 ∧
        x.confirmed = false ∧ x.next_escalation_time = none ∧
        x.escalation_messages_sent = [] := by
  rcases create_step_cases slot msg today now st c with ⟨_, h⟩ | ⟨_, h⟩ <;> rw [h]
  · exact ⟨[], by simp, le_refl _, by simp⟩
  · refine ⟨[newDailyReminder st c.id today slot msg now], rfl, Nat.le_succ _, ?_⟩
    intro x hx
    rw [List.mem_singleton] at hx
    subst hx
    exact ⟨le_refl _, rfl, rfl, rfl, rfl⟩

theorem foldl_create_extends (slot msg : String) (today now : Nat)
    (cs : List Customer) (st : DBState) :
    ∃ L, (cs.foldl (create_step slot msg today now) st).daily_reminders =
        st.daily_reminders ++ L ∧
      st.next_reminder_id ≤ (cs.foldl (create_step slot msg today now) st).next_reminder_id ∧
      ∀ x ∈ L, st.next_reminder_id ≤ x.id ∧ x.escalation_level = 0 ∧
        x.confirmed = false ∧ x.next_escalation_time = none ∧
        x.escalation_messages_sent = [] := by
  induction cs generalizing st with
  | nil => exact ⟨[], by simp, le_refl _, by simp⟩
  | cons c t ih =>
    rw [List.foldl_cons]
    obtain ⟨L1, hL1, hn1, hx1⟩ := create_step_extends slot msg today now st c
    obtain ⟨L2, hL2, hn2, hx2⟩ := ih (create_step slot msg today now st c)
    refine ⟨L1 ++ L2, ?_, le_trans hn1 hn2, ?_⟩
    · rw [hL2, hL1, List.append_assoc]
    · intro x hx
      rcases List.mem_append.1 hx with hx | hx
      · exact hx1 x hx
      · obtain ⟨hid, hrest⟩ := hx2 x hx
        exact ⟨le_trans hn1 hid, hrest⟩

theorem key_present_create_step_mono (slot msg : String) (today now : Nat)
    (st : DBState) (c : Customer) (cid date : Nat)
    (h : key_present st cid date = true) :
    key_present (create_step slot msg today now st c) cid date = true := by
  rcases create_step_cases slot msg today now st c with ⟨_, he⟩ | ⟨_, he⟩ <;> rw [he]
  · exact h
  · rw [key_present] at h ⊢
    simp only [List.any_append, h, Bool.true_or]

theorem key_present_create_step_self (slot msg : String) (today now : Nat)
    (st : DBState) (c : Customer) :
    key_present (create_step slot msg today now st c) c.id today = true := by
  rcases create_step_cases slot msg today now st c with ⟨hk, he⟩ | ⟨_, he⟩ <;> rw [he]
  · exact hk
  · rw [key_present]
    simp [newDailyReminder]

theorem key_present_foldl_mono (slot msg : String) (today now : Nat)
    (cs : List Customer) (st : DBState) (cid date : Nat)
    (h : key_present st cid date = true) :
    key_present (cs.foldl (create_step slot msg today now) st) cid date = true := by
  induction cs generalizing st with
  | nil => exact h
  | cons c t ih =>
    rw [List.foldl_cons]
    exact ih _ (key_present_create_step_mono slot msg today now st c cid date h)

theorem key_present_after_dispatch (slot msg : String) (today now : Nat)
    (cs : List Customer) (st : DBState) :
    ∀ c ∈ cs, key_present (cs.foldl (create_step slot msg today now) st) c.id today = true := by
  induction cs generalizing st with
  | nil => intro c hc; exact absurd hc (List.not_mem_nil c)
  | cons c t ih =>
    intro c2 hc2
    rw [List.foldl_cons]
    rcases List.mem_cons.1 hc2 with hc2 | hc2
    · subst hc2
      exact key_present_foldl_mono slot msg today now t _ c2.id today
        (key_present_create_step_self slot msg today now st c2)
    · exact ih _ c2 hc2

theorem create_step_noop (slot msg : String) (today now : Nat)
    (st : DBState) (c : Customer) (h : key_present st c.id today = true) :
    create_step slot msg today now st c = st := by
  rcases create_step_cases slot msg today now st c with ⟨_, he⟩ | ⟨hk, _⟩
  · exact he
  · rw [h] at hk
    exact absurd hk (by simp)

theorem foldl_create_noop (slot msg : String) (today now : Nat)
    (cs : List Customer) (st : DBState)
    (h : ∀ c ∈ cs, key_present st c.id today = true) :
    cs.foldl (create_step slot msg today now) st = st := by
  induction cs with
  | nil => rfl
  | cons c t ih =>
    rw [List.foldl_cons, create_step_noop slot msg today now st c (h c (List.mem_cons_self c t))]
    exact ih (fun c2 hc2 => h c2 (List.mem_cons_of_mem c hc2))

theorem key_absent_forall {st : DBState} {cid date : Nat}
    (h : key_present st cid date = false) :
    ∀ r ∈ st.daily_reminders, ¬(r.customer_id = cid ∧ r.reminder_date = date) := by
  rw [key_present, List.any_eq_false] at h
  intro r hr hk
  exact h r hr (by simp [hk.1, hk.2])

theorem create_step_unique_keys (slot msg : String) (today now : Nat)
    (st : DBState) (c : Customer) (h : unique_keys st) :
    unique_keys (create_step slot msg today now st c) := by
  rcases create_step_cases slot msg today now st c with ⟨_, he⟩ | ⟨hk, he⟩ <;> rw [he]
  · exact h
  · rw [unique_keys] at h ⊢
    rw [List.pairwise_append]
    refine ⟨h, List.pairwise_singleton _ _, ?_⟩
    intro a ha b hb
    rw [List.mem_singleton] at hb
    subst hb
    intro hab
    exact key_absent_forall hk a ha
      ⟨by rw [hab.1]; rfl, by rw [hab.2]; rfl⟩

theorem foldl_create_unique_keys (slot msg : String) (today now : Nat)
    (cs : List Customer) (st : DBState) (h : unique_keys st) :
    unique_keys (cs.foldl (create_step slot msg today now) st) := by
  induction cs generalizing st with
  | nil => exact h
  | cons c t ih =>
    rw [List.foldl_cons]
    exact ih _ (create_step_unique_keys slot msg today now st c h)

theorem create_step_store_invariant (slot msg : String) (today now : Nat)
    (st : DBState) (c : Customer) (h : store_invariant st) :
    store_invariant (create_step slot msg today now st c) := by
  obtain ⟨⟨hlt, hne⟩, hkeys, hrecs⟩ := h
  rcases create_step_cases slot msg today now st c with ⟨_, he⟩ | ⟨hk, he⟩ <;> rw [he]
  · exact ⟨⟨hlt, hne⟩, hkeys, hrecs⟩
  · refine ⟨⟨?_, ?_⟩, ?_, ?_⟩
    · intro r hr
      rcases List.mem_append.1 hr with hr | hr
      · exact Nat.lt_succ_of_lt (hlt r hr)
      · rw [List.mem_singleton] at hr
        subst hr
        exact Nat.lt_succ_self _
    · rw [List.pairwise_append]
      refine ⟨hne, List.pairwise_singleton _ _, ?_⟩
      intro a ha b hb
      rw [List.mem_singleton] at hb
      subst hb
      exact Nat.ne_of_lt (hlt a ha)
    · have := create_step_unique_keys slot msg today now st c hkeys
      rw [he] at this
      exact this
    · intro r hr
      rcases List.mem_append.1 hr with hr | hr
      · exact hrecs r hr
      · rw [List.mem_singleton] at hr
        subst hr
        exact ⟨by simp [newDailyReminder], by simp [newDailyReminder],
          by simp [newDailyReminder]⟩

theorem foldl_create_store_invariant (slot msg : String) (today now : Nat)
    (cs : List Customer) (st : DBState) (h : store_invariant st) :
    store_invariant (cs.foldl (create_step slot msg today now) st) := by
  induction cs generalizing st with
  | nil => exact h
  | cons c t ih =>
    rw [List.foldl_cons]
    exact ih _ (create_step_store_invariant slot msg today now st c h)

theorem process_confirmation_fst_cases (s : DBState) (sender text : String)
    (today now : Nat) :
    (process_confirmation s sender text today now).1 = s ∨
    ∃ c r0, get_customer_by_phone s sender = some c ∧
      get_daily_reminder s c.id today = some r0 ∧ r0.confirmed = false ∧
      (process_confirmation s sender text today now).1 =
        update_daily_reminder_confirmation s c.id today
          (template_confirmation_analysis text).1 text now := by
  cases hc : get_customer_by_phone s sender with
  | none => exact Or.inl (by simp [process_confirmation, hc])
  | some c =>
    cases hr : get_daily_reminder s c.id today with
    | none => exact Or.inl (by simp [process_confirmation, hc, hr])
    | some r0 =>
      by_cases hconf : r0.confirmed = true
      · exact Or.inl (by simp [process_confirmation, hc, hr, hconf])
      · refine Or.inr ⟨c, r0, rfl, hr, by simpa using hconf, ?_⟩
        by_cases ha : (template_confirmation_analysis text).1 = true <;>
          simp [process_confirmation, hc, hr, hconf, ha]

theorem confirmation_update_store_invariant (s : DBState) (cid date : Nat)
    (conf : Bool) (msg : String) (now : Nat) (h : store_invariant s) :
    store_invariant (update_daily_reminder_confirmation s cid date conf msg now) := by
  refine store_invariant_map s _ ?_ ?_ ?_ ?_ h <;> intro r
  · by_cases hk : (r.customer_id == cid && r.reminder_date == date) = true <;>
      simp [hk]
  · by_cases hk : (r.customer_id == cid && r.reminder_date == date) = true <;>
      simp [hk]
  · by_cases hk : (r.customer_id == cid && r.reminder_date == date) = true <;>
      simp [hk]
  · intro _ hrec
    by_cases hk : (r.customer_id == cid && r.reminder_date == date) = true <;>
      · simp only [hk, if_true, if_false]
        exact hrec

theorem reachable_store_invariant {s : DBState} (h : Reachable s) :
    store_invariant s := by
  induction h with
  | init cs nc =>
    exact ⟨⟨fun r hr => absurd hr (List.not_mem_nil r), List.Pairwise.nil⟩,
      List.Pairwise.nil, fun r hr => absurd hr (List.not_mem_nil r)⟩
  | @step s1 s2 _ hstep ih =>
    cases hstep with
    | dispatch slot msg today now =>
      exact foldl_create_store_invariant slot msg today now _ s1 ih
    | tick sendOk today now =>
      refine store_invariant_map s1 _ ?_ ?_ ?_ ?_ ih
      · intro r
        rcases tick_record_cases s1 sendOk today now r with he | ⟨_, _, _, he⟩ <;>
          rw [he]
        rfl
      · intro r
        rcases tick_record_cases s1 sendOk today now r with he | ⟨_, _, _, he⟩ <;>
          rw [he]
        rfl
      · intro r
        rcases tick_record_cases s1 sendOk today now r with he | ⟨_, _, _, he⟩ <;>
          rw [he]
        rfl
      · intro r _ hrec
        exact tick_record_record_invariant s1 sendOk today now r hrec
    | inbound sender text today now =>
      rcases process_confirmation_fst_cases s1 sender text today now with he | ⟨c, r0, _, _, _, he⟩ <;>
        rw [he]
      · exact ih
      · exact confirmation_update_store_invariant s1 c.id today _ text now ih
    | directory cs nc =>
      exact ih

theorem tick_record_id (s : DBState) (sendOk : Nat → Bool) (today now : Nat)
    (r : DailyReminder) : (tick_record s sendOk today now r).id = r.id := by
  rcases tick_record_cases s sendOk today now r with he | ⟨_, _, _, he⟩ <;> rw [he]
  all_goals rfl

theorem confirmation_update_mem_inv (s : DBState) (cid date : Nat) (conf : Bool)
    (msg : String) (now : Nat) (r2 : DailyReminder)
    (h : r2 ∈ (update_daily_reminder_confirmation s cid date conf msg now).daily_reminders) :
    ∃ r0 ∈ s.daily_reminders, r2.id = r0.id ∧
      (r2 = r0 ∨ ((r0.customer_id == cid && r0.reminder_date == date) = true ∧
        r2 = { r0 with
               confirmed := conf, confirmation_message := some msg,
               confirmation_time := some now })) := by
  simp only [update_daily_reminder_confirmation, List.mem_map] at h
  obtain ⟨r0, hr0, heq⟩ := h
  by_cases hk : (r0.customer_id == cid && r0.reminder_date == date) = true
  · rw [if_pos hk] at heq
    exact ⟨r0, hr0, by rw [← heq], Or.inr ⟨hk, heq.symm⟩⟩
  · rw [if_neg hk] at heq
    exact ⟨r0, hr0, by rw [← heq], Or.inl heq.symm⟩

/-- C4 (amended): in every reachable store, `next_escalation_time` is
null exactly while no escalation has been recorded for the record — it is
set by every successful escalation (including the one reaching level 4)
and never cleared afterwards; and a tick that hits a stop condition skips
the record by a bare `continue`, leaving it (and in particular a non-null
`next_escalation_time`) unchanged rather than clearing it. -/
theorem next_time_null_iff_never_escalated (s : DBState) (hs : Reachable s) :
    (∀ r ∈ s.daily_reminders,
      (r.next_escalation_time = none ↔ r.escalation_messages_sent = [])) ∧
    (∀ sendOk today now r, should_stop_escalating now r = true →
      tick_record s sendOk today now r = r) := by
  refine ⟨?_, ?_⟩
  · intro r hr
    exact ((reachable_store_invariant hs).2.2 r hr).2.1
  · intro sendOk today now r hstop
    unfold tick_record
    by_cases h1 : needs_escalation s today now r = true
    · rw [if_pos h1, if_pos hstop]
    · rw [if_neg h1]

/-- Witness for C4 at the reachable store `dispatchedState` and at a
stopped candidate. -/
theorem next_time_null_iff_never_escalated_witness :
    (dispatchedReminder.next_escalation_time = none ↔
      dispatchedReminder.escalation_messages_sent = []) ∧
    tick_record dispatchedState (fun _ => true) 1 1400 exhaustedReminder =
      exhaustedReminder :=
  ⟨(next_time_null_iff_never_escalated dispatchedState dispatchedState_reachable).1
      dispatchedReminder (by decide),
   (next_time_null_iff_never_escalated dispatchedState dispatchedState_reachable).2
      (fun _ => true) 1 1400 exhaustedReminder (by decide)⟩

theorem tick_record_mysql_eq (s : DBState) (today now : Nat) (r : DailyReminder) :
    tick_record_mysql s today now r = r := by
  unfold tick_record_mysql
  by_cases h : needs_escalation s today now r = true
  · rw [if_pos h]
    cases should_stop_escalating_mysql r with
    | none => rfl
    | some b => rfl
  · rw [if_neg h]

theorem tick_record_no_send (s : DBState) (today now : Nat) (r : DailyReminder) :
    tick_record s (fun _ => false) today now r = r := by
  rcases tick_record_cases s (fun _ => false) today now r with he | ⟨_, _, hsend, _⟩
  · exact he
  · exact absurd hsend (by simp)

theorem check_and_send_escalations_mysql_id (s : DBState) (today now : Nat) :
    check_and_send_escalations_mysql s today now = s := by
  unfold check_and_send_escalations_mysql
  have h : ∀ l : List DailyReminder, l.map (tick_record_mysql s today now) = l := by
    intro l
    induction l with
    | nil => rfl
    | cons a t ih => rw [List.map_cons, tick_record_mysql_eq, ih]
  rw [h]

/-- The tick as the MySQL code executes it coincides with the
intended-predicate model in which every send fails: the model's
transitions are a superset of the real ones, which is what the invariant
theorems proved over `Step` rely on. -/
theorem check_and_send_escalations_mysql_refines (s : DBState) (today now : Nat) :
    check_and_send_escalations_mysql s today now =
      check_and_send_escalations s (fun _ => false) today now := by
  rw [check_and_send_escalations_mysql_id]
  unfold check_and_send_escalations
  have h : ∀ l : List DailyReminder,
      l.map (tick_record s (fun _ => false) today now) = l := by
    intro l
    induction l with
    | nil => rfl
    | cons a t ih => rw [List.map_cons, tick_record_no_send, ih]
  rw [h]

/-- C5: no escalation send ever happens on the MySQL code, so no record
is ever advanced to level `k + 1` with `next_escalation_time = now + 30`:
every candidate with `confirmed = false` and `escalation_level < 4`
crashes `should_stop_escalating` at the 2-hour check
(`datetime.fromisoformat` applied to the `datetime`-typed `created_at`,
escalation_logic.py line 184) before `send_escalation` is reached, the
per-reminder handler swallows the `TypeError` and the loop continues;
the remaining candidates hit the stop check's bare `continue`.  Hence the
stop check never returns `False`, one tick is the identity on the store,
and the escalation update the claim describes never executes — while the
update as written (the intended-predicate model, evaluated at the
Scenario-C level-3 candidate) would have advanced the record to level 4
with `next_escalation_time = now + 30`, not null. -/
theorem escalation_send_path_unreachable :
    (∀ s today now, check_and_send_escalations_mysql s today now = s) ∧
    (∀ r, should_stop_escalating_mysql r = some true ∨
      should_stop_escalating_mysql r = none) ∧
    (needs_escalation level3State 1 1300 level3Reminder = true ∧
      should_stop_escalating_mysql level3Reminder = none ∧
      check_and_send_escalations_mysql level3State 1 1300 = level3State) ∧
    ((check_and_send_escalations level3State (fun _ => true) 1 1300).daily_reminders.map
        DailyReminder.escalation_level = [4] ∧
      (check_and_send_escalations level3State (fun _ => true) 1 1300).daily_reminders.map
        DailyReminder.next_escalation_time = [some 1330]) := by
  refine ⟨fun s today now => check_and_send_escalations_mysql_id s today now,
    ?_, by decide, by decide⟩
  intro r
  unfold should_stop_escalating_mysql
  split
  · exact Or.inl rfl
  · split
    · exact Or.inl rfl
    · exact Or.inr rfl

/-- C6: dispatching the same slot again is a no-op on the
`daily_reminders` table — every matching customer already has a row, so
each insert hits the uniqueness constraint, is caught by the per-customer
handler, and the loop continues with the next recipient.  Under the
uniqueness invariant the dispatched store holds exactly one row per
`(recipient, today)` key for each active customer of the slot. -/
theorem dispatch_idempotent_unique_record (s : DBState) (slot msg : String)
    (today now : Nat) (hkeys : unique_keys s) :
    send_reminder_records (send_reminder_records s slot msg today now) slot msg today now =
      send_reminder_records s slot msg today now ∧
    unique_keys (send_reminder_records s slot msg today now) ∧
    ∀ c ∈ get_customers_by_reminder_time s slot,
      ((send_reminder_records s slot msg today now).daily_reminders.filter
        (fun r => r.customer_id == c.id && r.reminder_date == today)).length = 1 := by
  have hcust : (send_reminder_records s slot msg today now).customers = s.customers :=
    foldl_create_customers slot msg today now _ s
  have hpres : ∀ c ∈ get_customers_by_reminder_time s slot,
      key_present (send_reminder_records s slot msg today now) c.id today = true :=
    key_present_after_dispatch slot msg today now _ s
  have huniq : unique_keys (send_reminder_records s slot msg today now) :=
    foldl_create_unique_keys slot msg today now _ s hkeys
  refine ⟨?_, huniq, ?_⟩
  · show (get_customers_by_reminder_time (send_reminder_records s slot msg today now) slot).foldl
      (create_step slot msg today now) (send_reminder_records s slot msg today now) =
      send_reminder_records s slot msg today now
    have hlist : get_customers_by_reminder_time (send_reminder_records s slot msg today now) slot =
        get_customers_by_reminder_time s slot := by
      unfold get_customers_by_reminder_time
      rw [hcust]
    rw [hlist]
    exact foldl_create_noop slot msg today now _ _ hpres
  · intro c hc
    have h1 : 1 ≤ ((send_reminder_records s slot msg today now).daily_reminders.filter
        (fun r => r.customer_id == c.id && r.reminder_date == today)).length := by
      have hp := hpres c hc
      rw [key_present, List.any_eq_true] at hp
      obtain ⟨x, hx, hpx⟩ := hp
      have hxm : x ∈ (send_reminder_records s slot msg today now).daily_reminders.filter
          (fun r => r.customer_id == c.id && r.reminder_date == today) :=
        List.mem_filter.2 ⟨hx, hpx⟩
      exact List.length_pos.2 (List.ne_nil_of_mem hxm)
    have h2 : ((send_reminder_records s slot msg today now).daily_reminders.filter
        (fun r => r.customer_id == c.id && r.reminder_date == today)).length ≤ 1 := by
      apply filter_length_le_one
      apply huniq.imp
      intro a b hab hpab
      obtain ⟨hpa, hpb⟩ := hpab
      rw [Bool.and_eq_true, beq_iff_eq, beq_iff_eq] at hpa hpb
      exact hab ⟨by rw [hpa.1, hpb.1], by rw [hpa.2, hpb.2]⟩
    omega

/-- Witness for C6: a second dispatch of `initState`'s slot is a no-op,
and Dana has exactly one record. -/
theorem dispatch_idempotent_unique_record_witness :
    send_reminder_records dispatchedState "20:00" "זמן לכדור! 💊" 0 1200 =
      dispatchedState ∧
    (dispatchedState.daily_reminders.filter
      (fun r => r.customer_id == danaCustomer.id && r.reminder_date == 0)).length = 1 := by
  have h := dispatch_idempotent_unique_record initState "20:00" "זמן לכדור! 💊" 0 1200
    List.Pairwise.nil
  exact ⟨h.1, h.2.2 danaCustomer (by decide)⟩

/-- C7: in every reachable store, `escalation_level` never exceeds 4 and
every recorded escalation message carries a level in 1..4 (the stop
re-check prevents escalating past level 4, so no level-5 message is ever
generated); and across any single operation the level of a surviving
record grows by exactly 0 or 1 — it never decreases and never jumps. -/
theorem escalation_ladder_monotone (s s2 : DBState) (hs : Reachable s)
    (hstep : Step s s2) :
    (∀ r ∈ s.daily_reminders,
      r.escalation_level ≤ 4 ∧
      ∀ e ∈ r.escalation_messages_sent, 1 ≤ e.level ∧ e.level ≤ 4) ∧
    (∀ r ∈ s.daily_reminders, ∀ r2 ∈ s2.daily_reminders, r.id = r2.id →
      r.escalation_level ≤ r2.escalation_level ∧
      r2.escalation_level ≤ r.escalation_level + 1) := by
  obtain ⟨⟨hlt, hne⟩, hkeys, hrecs⟩ := reachable_store_invariant hs
  constructor
  · intro r hr
    exact ⟨(hrecs r hr).1, (hrecs r hr).2.2⟩
  · intro r hr r2 hr2 hid
    cases hstep with
    | dispatch slot msg today now =>
      obtain ⟨L, hL, _, hx⟩ := foldl_create_extends slot msg today now
        (get_customers_by_reminder_time s slot) s
      unfold send_reminder_records at hr2
      rw [hL] at hr2
      rcases List.mem_append.1 hr2 with hr2 | hr2
      · have heq : r = r2 := pairwise_id_inj hne r hr r2 hr2 hid
        rw [heq]
        exact ⟨le_refl _, Nat.le_succ _⟩
      · have hge := (hx r2 hr2).1
        have hlt2 := hlt r hr
        omega
    | tick sendOk today now =>
      have hr2' : r2 ∈ s.daily_reminders.map (tick_record s sendOk today now) := hr2
      rw [List.mem_map] at hr2'
      obtain ⟨r0, hr0, heq⟩ := hr2'
      have hid0 : r0.id = r.id := by
        rw [← tick_record_id s sendOk today now r0, heq, hid]
      have heq0 : r0 = r := pairwise_id_inj hne r0 hr0 r hr hid0
      subst heq0
      rcases tick_record_cases s sendOk today now r0 with he | ⟨_, _, _, he⟩ <;>
        rw [he] at heq <;> rw [← heq]
      · exact ⟨le_refl _, Nat.le_succ _⟩
      · exact ⟨Nat.le_succ _, le_refl _⟩
    | inbound sender text today now =>
      rcases process_confirmation_fst_cases s sender text today now with
        he | ⟨c, r0, _, _, _, he⟩ <;> rw [he] at hr2
      · have heq : r = r2 := pairwise_id_inj hne r hr r2 hr2 hid
        rw [heq]
        exact ⟨le_refl _, Nat.le_succ _⟩
      · obtain ⟨r1, hr1, hid1, hcase⟩ := confirmation_update_mem_inv s c.id today
          (template_confirmation_analysis text).1 text now r2 hr2
        have heq1 : r = r1 := pairwise_id_inj hne r hr r1 hr1 (by rw [hid, hid1])
        rcases hcase with hc2 | ⟨_, hc2⟩ <;> rw [hc2, ← heq1]
        · exact ⟨le_refl _, Nat.le_succ _⟩
        · exact ⟨le_refl _, Nat.le_succ _⟩
    | directory cs nc =>
      have heq : r = r2 := pairwise_id_inj hne r hr r2 hr2 hid
      rw [heq]
      exact ⟨le_refl _, Nat.le_succ _⟩

/-- Witness for C7 at the reachable store `dispatchedState` across one
tick. -/
theorem escalation_ladder_monotone_witness :
    dispatchedReminder.escalation_level ≤ 4 ∧
    dispatchedReminder.escalation_level ≤
      (tick_record dispatchedState (fun _ => true) 1 1300 dispatchedReminder).escalation_level :=
  ⟨((escalation_ladder_monotone dispatchedState
      (check_and_send_escalations dispatchedState (fun _ => true) 1 1300)
      dispatchedState_reachable
      (Step.tick dispatchedState (fun _ => true) 1 1300)).1
      dispatchedReminder (by decide)).1,
   ((escalation_ladder_monotone dispatchedState
      (check_and_send_escalations dispatchedState (fun _ => true) 1 1300)
      dispatchedState_reachable
      (Step.tick dispatchedState (fun _ => true) 1 1300)).2
      dispatchedReminder (by decide)
      (tick_record dispatchedState (fun _ => true) 1 1300 dispatchedReminder)
      (List.mem_map_of_mem _ (by decide))
      (tick_record_id dispatchedState (fun _ => true) 1 1300 dispatchedReminder).symm).1⟩

/-- C8 (amended): `confirmation_time` is written by EVERY inbound message
processed while the record is unconfirmed — in particular a message
classified as missed or unclear sets (and a later one overwrites) it,
since `update_daily_reminder_confirmation` writes `confirmation_time =
NOW()` unconditionally.  Once `confirmed = true`, the handler's guard
skips the record, so across any operation `confirmed` never reverts and
the confirmation fields are never overwritten afterwards. -/
theorem confirmation_fields_behavior (s s2 : DBState) (hs : Reachable s)
    (hstep : Step s s2) (sender text : String) (today now : Nat) :
    (∀ r ∈ s.daily_reminders, ∀ r2 ∈ s2.daily_reminders, r.id = r2.id →
      r.confirmed = true →
      r2.confirmed = true ∧ r2.confirmation_time = r.confirmation_time ∧
        r2.confirmation_message = r.confirmation_message) ∧
    (∀ c r, get_customer_by_phone s sender = some c →
      get_daily_reminder s c.id today = some r → r.confirmed = false →
      (template_confirmation_analysis text).1 = false →
      { r with
        confirmed := false, confirmation_message := some text,
        confirmation_time := some now } ∈
        (process_confirmation s sender text today now).1.daily_reminders) := by
  obtain ⟨⟨hlt, hne⟩, hkeys, hrecs⟩ := reachable_store_invariant hs
  constructor
  · intro r hr r2 hr2 hid hconf
    cases hstep with
    | dispatch slot msg today2 now2 =>
      obtain ⟨L, hL, _, hx⟩ := foldl_create_extends slot msg today2 now2
        (get_customers_by_reminder_time s slot) s
      unfold send_reminder_records at hr2
      rw [hL] at hr2
      rcases List.mem_append.1 hr2 with hr2 | hr2
      · have heq : r = r2 := pairwise_id_inj hne r hr r2 hr2 hid
        rw [← heq]
        exact ⟨hconf, rfl, rfl⟩
      · have hge := (hx r2 hr2).1
        have hlt2 := hlt r hr
        omega
    | tick sendOk today2 now2 =>
      have hr2' : r2 ∈ s.daily_reminders.map (tick_record s sendOk today2 now2) := hr2
      rw [List.mem_map] at hr2'
      obtain ⟨r0, hr0, heq⟩ := hr2'
      have hid0 : r0.id = r.id := by
        rw [← tick_record_id s sendOk today2 now2 r0, heq, hid]
      have heq0 : r0 = r := pairwise_id_inj hne r0 hr0 r hr hid0
      subst heq0
      rcases tick_record_cases s sendOk today2 now2 r0 with he | ⟨_, _, _, he⟩ <;>
        rw [he] at heq <;> rw [← heq]
      · exact ⟨hconf, rfl, rfl⟩
      · exact ⟨hconf, rfl, rfl⟩
    | inbound sender2 text2 today2 now2 =>
      rcases process_confirmation_fst_cases s sender2 text2 today2 now2 with
        he | ⟨c, r0, hc0, hr0, hconf0, he⟩ <;> rw [he] at hr2
      · have heq : r = r2 := pairwise_id_inj hne r hr r2 hr2 hid
        rw [← heq]
        exact ⟨hconf, rfl, rfl⟩
      · obtain ⟨r1, hr1, hid1, hcase⟩ := confirmation_update_mem_inv s c.id today2
          (template_confirmation_analysis text2).1 text2 now2 r2 hr2
        have heq1 : r = r1 := pairwise_id_inj hne r hr r1 hr1 (by rw [hid, hid1])
        rcases hcase with hc2 | ⟨hkey, hc2⟩
        · rw [hc2, ← heq1]
          exact ⟨hconf, rfl, rfl⟩
        · rw [get_daily_reminder] at hr0
          have hr0m : r0 ∈ s.daily_reminders := List.mem_of_find?_eq_some hr0
          have hr0p := List.find?_some hr0
          rw [Bool.and_eq_true, beq_iff_eq, beq_iff_eq] at hr0p hkey
          have heq01 : r1 = r0 := pairwise_key_inj hkeys r1 hr1 r0 hr0m
            (by rw [hkey.1, hr0p.1]) (by rw [hkey.2, hr0p.2])
          rw [← heq1] at heq01
          rw [heq01] at hconf
          rw [hconf0] at hconf
          exact absurd hconf (by simp)
    | directory cs nc =>
      have heq : r = r2 := pairwise_id_inj hne r hr r2 hr2 hid
      rw [← heq]
      exact ⟨hconf, rfl, rfl⟩
  · intro c r hc hr hconf ha
    have hres : (process_confirmation s sender text today now).1 =
        update_daily_reminder_confirmation s c.id today
          (template_confirmation_analysis text).1 text now := by
      simp [process_confirmation, hc, hr, hconf, ha]
    rw [hres, ha]
    rw [get_daily_reminder] at hr
    have hm : r ∈ s.daily_reminders := List.mem_of_find?_eq_some hr
    have hp := List.find?_some hr
    have hm2 : (if r.customer_id == c.id && r.reminder_date == today then
        { r with
          confirmed := (template_confirmation_analysis text).1,
          confirmation_message := some text, confirmation_time := some now }
      else r) ∈ (update_daily_reminder_confirmation s c.id today
          (template_confirmation_analysis text).1 text now).daily_reminders :=
      List.mem_map_of_mem _ hm
    rw [if_pos hp, ha] at hm2
    exact hm2

/-- Witness for C8: at the reachable `dispatchedState`, the missed
message "שכחתי" writes `confirmation_time` while leaving the record
unconfirmed. -/
theorem confirmation_fields_behavior_witness :
    { dispatchedReminder with
      confirmed := false, confirmation_message := some "שכחתי",
      confirmation_time := some 1245 } ∈
      (process_confirmation dispatchedState "972501234567" "שכחתי" 0 1245).1.daily_reminders :=
  (confirmation_fields_behavior dispatchedState
      (check_and_send_escalations dispatchedState (fun _ => true) 1 1300)
      dispatchedState_reachable
      (Step.tick dispatchedState (fun _ => true) 1 1300)
      "972501234567" "שכחתי" 0 1245).2 danaCustomer dispatchedReminder
      (by decide) (by decide) (by decide) (by decide)

/-- C9 (amended): the add operation validates the phone AFTER removing
whitespace, dashes and parentheses (so a separator-formatted number whose
digits are 10-15 long is accepted), accepts a single-digit hour in the
reminder time (`H:MM` as well as `HH:MM`, hour 0-23, minute 00-59),
checks duplicates only after both validations pass — by exact string
comparison against all stored customers, active or not — and otherwise
appends the new recipient.  The last conjunct states the phone rule
exactly: the code's check equals the specification's 10-15-digits-with-
optional-plus format applied to the separator-stripped string. -/
theorem add_customer_validation_behavior (s : DBState) (p n t : Option String)
    (hp : (pyStrip (p.getD "") == "") = false) :
    (validate_phone_number (pyStrip (p.getD "")) = false →
      add_customer_route s p n t = (s, .invalidPhone)) ∧
    (validate_phone_number (pyStrip (p.getD "")) = true →
      validate_reminder_time (pyStrip (t.getD "20:00")) = false →
      add_customer_route s p n t = (s, .invalidTime)) ∧
    (validate_phone_number (pyStrip (p.getD "")) = true →
      validate_reminder_time (pyStrip (t.getD "20:00")) = true →
      (∃ c ∈ s.customers, c.phone_number = pyStrip (p.getD "")) →
      add_customer_route s p n t = (s, .duplicatePhone)) ∧
    (validate_phone_number (pyStrip (p.getD "")) = true →
      validate_reminder_time (pyStrip (t.getD "20:00")) = true →
      (∀ c ∈ s.customers, c.phone_number ≠ pyStrip (p.getD "")) →
      add_customer_route s p n t =
        ({ s with
           customers := s.customers ++
             [{ id := s.next_customer_id,
                phone_number := pyStrip (p.getD ""),
                name := if pyStrip (n.getD "") == "" then none
                        else some (pyStrip (n.getD "")),
                reminder_time := pyStrip (t.getD "20:00"),
                is_active := true }],
           next_customer_id := s.next_customer_id + 1 },
         .created s.next_customer_id)) ∧
    (∀ q : String, validate_phone_number q =
      spec_phone_format (String.mk (q.data.filter (fun ch => !phone_separator_char ch)))) := by
  refine ⟨?_, ?_, ?_, ?_, fun q => rfl⟩
  · intro hv
    simp [add_customer_route, hp, hv]
  · intro hv ht
    simp [add_customer_route, hp, hv, ht]
  · rintro hv ht ⟨c, hcm, hcp⟩
    have hsome : (get_customer_by_phone s (pyStrip (p.getD ""))).isSome = true := by
      rw [get_customer_by_phone, List.find?_isSome]
      exact ⟨c, hcm, by rw [beq_iff_eq]; exact hcp⟩
    simp [add_customer_route, hp, hv, ht, hsome]
  · intro hv ht hno
    have hnone : get_customer_by_phone s (pyStrip (p.getD "")) = none := by
      rw [get_customer_by_phone, List.find?_eq_none]
      intro c hc
      simp only [beq_iff_eq]
      exact hno c hc
    simp [add_customer_route, hp, hv, ht, hnone]

/-- Witness for C9: adding Dana with a fresh valid phone creates her
record. -/
theorem add_customer_validation_behavior_witness :
    add_customer_route emptyDirectory (some "0501234567") (some "Dana") (some "20:00") =
      ({ emptyDirectory with
         customers := emptyDirectory.customers ++
           [{ id := emptyDirectory.next_customer_id,
              phone_number := pyStrip ((some "0501234567").getD ""),
              name := if pyStrip ((some "Dana").getD "") == "" then none
                      else some (pyStrip ((some "Dana").getD "")),
              reminder_time := pyStrip ((some "20:00").getD ""),
              is_active := true }],
         next_customer_id := emptyDirectory.next_customer_id + 1 },
       .created emptyDirectory.next_customer_id) :=
  (add_customer_validation_behavior emptyDirectory (some "0501234567") (some "Dana")
      (some "20:00") (by decide)).2.2.2.1 (by decide) (by decide)
      (fun c hc => absurd hc (List.not_mem_nil c))

end ReminderSystem
